import Mathlib

/-!
Shallow embedding of the iNES cartridge decoder in `nes_py/_rom.py`
(class `ROM`).

A ROM file is modelled as a `List Nat` of bytes, the result of
`np.fromfile(path, dtype="uint8")`; well-formedness of the bytes
(`b < 256`) is the predicate `Bytes`.  Every `cached_property` of the
Python class becomes a plain function of the buffer.

Two points of numpy semantics matter and are embedded as they really
behave, not as the surrounding code seems to assume:

* basic slicing `a[i:j]` clamps out-of-range bounds to the array length
  and never raises `IndexError`; in particular the
  `except IndexError` handlers in `prg_rom` / `chr_rom` are unreachable,
  so those properties are total functions returning the clamped slice;
* `ndarray.sum()` on a `uint8` array promotes to a wide accumulator, so
  `_zero_fill` is the exact arithmetic sum with no wraparound.
-/

namespace NesPy

/-- The magic bytes `ROM._MAGIC` expected at the start of the header. -/
def MAGIC : List Nat := [0x4E, 0x45, 0x53, 0x1A]

/-- Basic numpy slice `a[start:stop]`: out-of-range bounds clamp to the
array's length and never raise. -/
def npSlice (d : List Nat) (start stop : Nat) : List Nat :=
  (d.take stop).drop start

/-- The buffer comes from `np.fromfile(path, dtype="uint8")`: every
element is a byte. -/
def Bytes (d : List Nat) : Prop := ∀ b ∈ d, b < 256

/-- Property `header`: `self.raw_data[:16]` (shorter when the file is
shorter than 16 bytes). -/
def header (d : List Nat) : List Nat := d.take 16

/-- Property `_magic`: `self.header[:4]`. -/
def magicBytes (d : List Nat) : List Nat := (header d).take 4

/-- Byte `i` of the header, `self.header[i]`.  Python raises
`IndexError` on an out-of-range index; theorems only use `hdr` under a
length hypothesis that keeps `i` in range, so the `getD` default is
never reached there. -/
def hdr (d : List Nat) (i : Nat) : Nat := (header d).getD i 0

/-- Property `_zero_fill`: `self.header[11:].sum()` (exact sum, numpy
promotes the accumulator). -/
def zero_fill (d : List Nat) : Nat := ((header d).drop 11).sum

/-- The two `ValueError`s that `ROM.__init__` can raise after reading
the file: missing magic number, or non-zero zero-fill bytes. -/
inductive RomError
  | badMagic
  | badHeader
  deriving DecidableEq

/-- The validation performed by `ROM.__init__` after `np.fromfile`:
first the magic check, then the zero-fill check; on success a decoded
instance exists. -/
def construct (d : List Nat) : Except RomError Unit :=
  if magicBytes d ≠ MAGIC then .error .badMagic
  else if zero_fill d ≠ 0 then .error .badHeader
  else .ok ()

/-- Property `prg_rom_size`: `16 * int(self.header[4])` (in KB). -/
def prg_rom_size (d : List Nat) : Nat := 16 * hdr d 4

/-- Property `chr_rom_size`: `8 * int(self.header[5])` (in KB). -/
def chr_rom_size (d : List Nat) : Nat := 8 * hdr d 5

/-- Property `prg_ram_size` (in KB, per its docstring):
`size = self.header[8]` is a numpy `uint8` scalar.  When it is zero it
is replaced by the Python int 1 and `8 * size` is exact; otherwise the
multiplication stays in `uint8` and wraps modulo 256. -/
def prg_ram_size (d : List Nat) : Nat :=
  if hdr d 8 = 0 then 8 else 8 * hdr d 8 % 256

/-- Character `k` of the binary string rendering of a byte, as a digit:
the source reads bits through strings built by formatting a byte as
eight binary characters, and character `k` of that string is bit
`7 - k` of the byte (for `b < 256`). -/
def flagBit (b k : Nat) : Nat := b / 2 ^ (7 - k) % 2

/-- Property `mapper`: the top four characters of the binary string of
`flags_7` concatenated with the top four of `flags_6`, parsed base 2,
i.e. `(header[7] div 16) * 16 + header[6] div 16` for byte values. -/
def mapper (d : List Nat) : Nat := hdr d 7 / 16 * 16 + hdr d 6 / 16

/-- Property `is_ignore_mirroring`: `bool(int(flags_6[4]))`. -/
def is_ignore_mirroring (d : List Nat) : Bool := flagBit (hdr d 6) 4 != 0

/-- Property `has_trainer`: `bool(int(flags_6[5]))`. -/
def has_trainer (d : List Nat) : Bool := flagBit (hdr d 6) 5 != 0

/-- Property `has_battery_backed_ram`: `bool(int(flags_6[6]))`. -/
def has_battery_backed_ram (d : List Nat) : Bool := flagBit (hdr d 6) 6 != 0

/-- Property `is_vertical_mirroring`: `bool(int(flags_6[7]))`. -/
def is_vertical_mirroring (d : List Nat) : Bool := flagBit (hdr d 6) 7 != 0

/-- Property `is_pal`: `bool(int(flags_9[7]))`. -/
def is_pal (d : List Nat) : Bool := flagBit (hdr d 9) 7 != 0

/-- Property `trainer_rom_start`: the constant 16. -/
def trainer_rom_start (_ : List Nat) : Nat := 16

/-- Property `trainer_rom_stop`: `16 + 512` when the trainer flag is
set, else 16. -/
def trainer_rom_stop (d : List Nat) : Nat :=
  if has_trainer d then 16 + 512 else 16

/-- Property `trainer_rom`: `raw_data[trainer_rom_start:trainer_rom_stop]`. -/
def trainer_rom (d : List Nat) : List Nat :=
  npSlice d (trainer_rom_start d) (trainer_rom_stop d)

/-- Property `prg_rom_start`: `trainer_rom_stop`. -/
def prg_rom_start (d : List Nat) : Nat := trainer_rom_stop d

/-- Property `prg_rom_stop`: `prg_rom_start + prg_rom_size * 2**10`. -/
def prg_rom_stop (d : List Nat) : Nat :=
  prg_rom_start d + prg_rom_size d * 2 ^ 10

/-- Property `prg_rom`: `raw_data[prg_rom_start:prg_rom_stop]`.  The
source wraps this in `try/except IndexError`, but numpy basic slicing
clamps instead of raising, so the handler is dead and the property is
total. -/
def prg_rom (d : List Nat) : List Nat :=
  npSlice d (prg_rom_start d) (prg_rom_stop d)

/-- Property `chr_rom_start`: `int(prg_rom_stop)`. -/
def chr_rom_start (d : List Nat) : Nat := prg_rom_stop d

/-- Property `chr_rom_stop`: `chr_rom_start + chr_rom_size * 2**10`. -/
def chr_rom_stop (d : List Nat) : Nat :=
  chr_rom_start d + chr_rom_size d * 2 ^ 10

/-- Property `chr_rom`: `raw_data[chr_rom_start:chr_rom_stop]`, total
for the same reason as `prg_rom`. -/
def chr_rom (d : List Nat) : List Nat :=
  npSlice d (chr_rom_start d) (chr_rom_stop d)

/-! Concrete buffers used as witnesses and counterexamples. -/

/-- A minimal valid image: correct magic, all other header bytes zero,
no trainer, zero PRG and CHR units, exactly 16 bytes long. -/
def dMin16 : List Nat := [0x4E, 0x45, 0x53, 0x1A, 0, 0, 0, 0, 0, 0, 0, 0, 0, 0, 0, 0]

/-- The header of the spec's Scenario A/B: `prg_units = 2`,
`chr_units = 1`, all flags clear. -/
def hdrB : List Nat := [0x4E, 0x45, 0x53, 0x1A, 2, 1, 0, 0, 0, 0, 0, 0, 0, 0, 0, 0]

/-- Scenario B: the Scenario A header on a file truncated to 1000
bytes in total. -/
def dTrunc : List Nat := hdrB ++ List.replicate 984 0

/-- A 20-byte image whose header sets the trainer flag
(`header[6] = 4`) and otherwise validates. -/
def d20 : List Nat := [0x4E, 0x45, 0x53, 0x1A, 0, 0, 4, 0, 0, 0, 0, 0, 0, 0, 0, 0, 9, 9, 9, 9]

/-- A 12-byte buffer with correct magic whose byte at offset 11 is
non-zero. -/
def d12 : List Nat := [0x4E, 0x45, 0x53, 0x1A, 0, 0, 0, 0, 0, 0, 0, 1]

/-- A 5-byte buffer with correct magic and nothing at offsets 11+. -/
def d5 : List Nat := [0x4E, 0x45, 0x53, 0x1A, 7]

/-- Scenario E's magic bytes: last byte wrong. -/
def dE : List Nat := [0x4E, 0x45, 0x53, 0x00]

/-- A 16-byte header whose byte at offset 12 is 1 (Scenario D). -/
def dD : List Nat := [0x4E, 0x45, 0x53, 0x1A, 0, 0, 0, 0, 0, 0, 0, 0, 1, 0, 0, 0]

/-! Helper lemmas. -/

/-- Length of a clamped slice. -/
theorem npSlice_length (d : List Nat) (start stop : Nat) :
    (npSlice d start stop).length = min stop d.length - start := by
  simp [npSlice]

/-- Every header byte of a byte buffer is a byte (the `getD` default 0
included). -/
theorem hdr_lt_256 (d : List Nat) (hB : Bytes d) (i : Nat) : hdr d i < 256 := by
  unfold hdr header
  rcases h : (d.take 16).get? i with _ | b
  · rw [List.getD_eq_getElem?_getD, ← List.get?_eq_getElem?, h]
    simp
  · have hb : b ∈ d.take 16 := List.get?_mem h
    have hbd : b ∈ d := List.take_subset 16 d hb
    rw [List.getD_eq_getElem?_getD, ← List.get?_eq_getElem?, h]
    simpa using hB b hbd

set_option maxRecDepth 100000 in
/-- On a byte `x` and a nibble `y`, masking then or-ing agrees with the
arithmetic the string-based extraction performs. -/
theorem nibble_lor : ∀ x < 256, ∀ y < 16, (x &&& 240) ||| y = x / 16 * 16 + y := by
  decide

/-- The string-indexed bit read agrees with `Nat.testBit`. -/
theorem flagBit_testBit (b i : Nat) : (flagBit b i != 0) = b.testBit (7 - i) := by
  unfold flagBit
  rw [Nat.testBit_to_div_mod]
  rcases Nat.mod_two_eq_zero_or_one (b / 2 ^ (7 - i)) with h | h <;> simp [h]

/-- The magic slice is just the first four bytes of the buffer. -/
theorem magicBytes_eq_take (d : List Nat) : magicBytes d = d.take 4 := by
  rw [magicBytes, header, List.take_take]
  norm_num

theorem dTrunc_length : dTrunc.length = 1000 := by
  rw [dTrunc, List.length_append, List.length_replicate]
  norm_num [hdrB]

theorem dTrunc_prg_len : (prg_rom dTrunc).length = 984 := by
  have h1 : prg_rom_start dTrunc = 16 := rfl
  have h2 : prg_rom_stop dTrunc = 32784 := rfl
  rw [prg_rom, npSlice_length, h1, h2, dTrunc_length]
  omega

theorem dTrunc_chr_len : (chr_rom dTrunc).length = 0 := by
  have h1 : chr_rom_start dTrunc = 32784 := rfl
  have h2 : chr_rom_stop dTrunc = 40976 := rfl
  rw [chr_rom, npSlice_length, h1, h2, dTrunc_length]
  omega

/-! Claim theorems. -/

/-- C7: for every input buffer whose first 4 bytes are not exactly
`4E 45 53 1A`, construction fails with the bad-magic `ValueError`, so
no decoded instance is observable. -/
theorem C7_bad_magic (d : List Nat) (h : d.take 4 ≠ MAGIC) :
    construct d = .error .badMagic := by
  unfold construct
  rw [magicBytes_eq_take]
  simp [h]

/-- Witness for C7 at Scenario E's buffer (last magic byte wrong). -/
theorem C7_bad_magic_witness :
    dE.take 4 ≠ MAGIC ∧ construct dE = Except.error RomError.badMagic :=
  ⟨by decide, C7_bad_magic dE (by decide)⟩

/-- C8: for every input buffer whose first 4 bytes equal the magic
signature but whose reserved header bytes at offsets 11 through 15 sum
to a non-zero value, construction fails with the bad-header
`ValueError`. -/
theorem C8_bad_header (d : List Nat) (hm : d.take 4 = MAGIC)
    (hz : zero_fill d ≠ 0) : construct d = .error .badHeader := by
  unfold construct
  rw [magicBytes_eq_take]
  simp [hm, hz]

/-- Witness for C8 at Scenario D's header (offset 12 holds 1). -/
theorem C8_bad_header_witness :
    dD.take 4 = MAGIC ∧ zero_fill dD ≠ 0 ∧
      construct dD = Except.error RomError.badHeader :=
  ⟨by decide, by decide, C8_bad_header dD (by decide) (by decide)⟩

/-- C10 (amended): for every buffer shorter than 16 bytes whose first 4
bytes equal the magic and whose bytes past offset 11 — possibly none —
sum to zero, construction succeeds; in particular the decoder never
rejects an input merely for lacking a complete 16-byte header. -/
theorem C10_short_ok (d : List Nat) (hlen : d.length < 16)
    (hm : d.take 4 = MAGIC) (hz : (d.drop 11).sum = 0) :
    construct d = .ok () := by
  have hd : d.take 16 = d := List.take_of_length_le (Nat.le_of_lt hlen)
  unfold construct
  rw [magicBytes_eq_take]
  unfold zero_fill header
  rw [hd]
  simp [hm, hz]

/-- Witness for C10 at a 5-byte buffer starting with the magic. -/
theorem C10_short_ok_witness :
    d5.length < 16 ∧ d5.take 4 = MAGIC ∧ (d5.drop 11).sum = 0 ∧
      construct d5 = Except.ok () :=
  ⟨by decide, by decide, by decide, C10_short_ok d5 (by decide) (by decide) (by decide)⟩

/-- Counterexample to C10 as stated: a 12-byte buffer with correct
magic whose byte at offset 11 is non-zero is rejected, so not every
short buffer with correct magic constructs successfully. -/
theorem C10_short_counterexample :
    d12.length < 16 ∧ d12.take 4 = MAGIC ∧ construct d12 ≠ Except.ok () := by
  refine ⟨by decide, by decide, ?_⟩
  have h : construct d12 = Except.error RomError.badHeader := rfl
  rw [h]
  simp

/-- C4: for every successfully constructed ROM, the mapper identifier
equals `(flags7 &&& 0xF0) ||| (flags6 >>> 4)` and lies in `[0, 255]`. -/
theorem C4_mapper_id (d : List Nat) (hB : Bytes d)
    (hc : construct d = .ok ()) (hl : 16 ≤ d.length) :
    mapper d = (hdr d 7 &&& 0xF0) ||| (hdr d 6 >>> 4) ∧ mapper d ≤ 255 := by
  have h7 := hdr_lt_256 d hB 7
  have h6 := hdr_lt_256 d hB 6
  have hy : hdr d 6 >>> 4 = hdr d 6 / 16 := by
    rw [Nat.shiftRight_eq_div_pow]
  have hy16 : hdr d 6 / 16 < 16 := by omega
  constructor
  · rw [hy, nibble_lor (hdr d 7) h7 (hdr d 6 / 16) hy16]
    rfl
  · unfold mapper
    omega

/-- Witness for C4 at the minimal valid image. -/
theorem C4_mapper_id_witness :
    Bytes dMin16 ∧ construct dMin16 = Except.ok () ∧ 16 ≤ dMin16.length ∧
      (mapper dMin16 = (hdr dMin16 7 &&& 0xF0) ||| (hdr dMin16 6 >>> 4) ∧
        mapper dMin16 ≤ 255) :=
  ⟨by unfold Bytes; decide, rfl, by decide,
    C4_mapper_id dMin16 (by unfold Bytes; decide) rfl (by decide)⟩

/-- C5: for every successfully constructed ROM, the decoded flags read
exactly the documented bit positions: ignore-mirroring is flags6 bit 3,
trainer is flags6 bit 2, battery RAM is flags6 bit 1, vertical
mirroring is flags6 bit 0, and PAL is flags9 bit 0. -/
theorem C5_flag_bits (d : List Nat) (hB : Bytes d)
    (hc : construct d = .ok ()) (hl : 16 ≤ d.length) :
    is_ignore_mirroring d = (hdr d 6).testBit 3 ∧
      has_trainer d = (hdr d 6).testBit 2 ∧
      has_battery_backed_ram d = (hdr d 6).testBit 1 ∧
      is_vertical_mirroring d = (hdr d 6).testBit 0 ∧
      is_pal d = (hdr d 9).testBit 0 := by
  exact ⟨flagBit_testBit (hdr d 6) 4, flagBit_testBit (hdr d 6) 5,
    flagBit_testBit (hdr d 6) 6, flagBit_testBit (hdr d 6) 7,
    flagBit_testBit (hdr d 9) 7⟩

/-- Witness for C5 at the minimal valid image. -/
theorem C5_flag_bits_witness :
    Bytes dMin16 ∧ construct dMin16 = Except.ok () ∧ 16 ≤ dMin16.length ∧
      (is_ignore_mirroring dMin16 = (hdr dMin16 6).testBit 3 ∧
        has_trainer dMin16 = (hdr dMin16 6).testBit 2 ∧
        has_battery_backed_ram dMin16 = (hdr dMin16 6).testBit 1 ∧
        is_vertical_mirroring dMin16 = (hdr dMin16 6).testBit 0 ∧
        is_pal dMin16 = (hdr dMin16 9).testBit 0) :=
  ⟨by unfold Bytes; decide, rfl, by decide,
    C5_flag_bits dMin16 (by unfold Bytes; decide) rfl (by decide)⟩

/-- C3 (amended): the exposed `prg_ram_size` is in KiB, not bytes, and
is computed in `uint8` arithmetic.  Scaled to bytes it equals
`8192 * (prg_ram_units == 0 ? 1 : prg_ram_units)` reduced modulo
`262144` (that is, `1024 * 256`); the unreduced byte formula holds
exactly when `prg_ram_units < 32`, and when `prg_ram_units` is 0 the
exposed value is 8, not 8192. -/
theorem C3_prg_ram_kb (d : List Nat) (hc : construct d = .ok ())
    (hl : 16 ≤ d.length) :
    1024 * prg_ram_size d =
        8192 * (if hdr d 8 = 0 then 1 else hdr d 8) % 262144 ∧
      (hdr d 8 = 0 → prg_ram_size d = 8) ∧
      (hdr d 8 < 32 →
        1024 * prg_ram_size d = 8192 * (if hdr d 8 = 0 then 1 else hdr d 8)) := by
  unfold prg_ram_size
  rcases Nat.eq_zero_or_pos (hdr d 8) with h0 | hpos
  · refine ⟨?_, fun _ => by simp [h0], fun _ => by simp [h0]⟩
    simp [h0]
  · have hne : hdr d 8 ≠ 0 := Nat.pos_iff_ne_zero.mp hpos
    refine ⟨?_, fun h => absurd h hne, fun hlt => ?_⟩
    · simp only [if_neg hne]
      omega
    · simp only [if_neg hne]
      omega

/-- Witness for C3's amended statement at the minimal valid image. -/
theorem C3_prg_ram_kb_witness :
    construct dMin16 = Except.ok () ∧ 16 ≤ dMin16.length ∧
      (1024 * prg_ram_size dMin16 =
          8192 * (if hdr dMin16 8 = 0 then 1 else hdr dMin16 8) % 262144 ∧
        (hdr dMin16 8 = 0 → prg_ram_size dMin16 = 8) ∧
        (hdr dMin16 8 < 32 →
          1024 * prg_ram_size dMin16 =
            8192 * (if hdr dMin16 8 = 0 then 1 else hdr dMin16 8))) :=
  ⟨rfl, by decide, C3_prg_ram_kb dMin16 rfl (by decide)⟩

/-- Counterexample to C3 as stated: on a valid image with
`prg_ram_units = 0` the exposed size is 8 (KiB), not 8192 (bytes). -/
theorem C3_prg_ram_counterexample :
    construct dMin16 = Except.ok () ∧ hdr dMin16 8 = 0 ∧
      prg_ram_size dMin16 = 8 ∧ prg_ram_size dMin16 ≠ 8192 :=
  ⟨rfl, rfl, rfl, by decide⟩

/-- C9: for every successfully constructed ROM the region boundaries
are contiguous and non-overlapping in the fixed order trainer →
prg_rom → chr_rom: the trainer starts at offset 16, `prg_rom_start`
equals the trainer's end, `chr_rom_start` equals `prg_rom_stop`, and
each region's start is at most its stop. -/
theorem C9_contiguous_regions (d : List Nat) (hc : construct d = .ok ()) :
    trainer_rom_start d = 16 ∧
      prg_rom_start d = trainer_rom_stop d ∧
      chr_rom_start d = prg_rom_stop d ∧
      trainer_rom_start d ≤ trainer_rom_stop d ∧
      prg_rom_start d ≤ prg_rom_stop d ∧
      chr_rom_start d ≤ chr_rom_stop d := by
  refine ⟨rfl, rfl, rfl, ?_, Nat.le_add_right _ _, Nat.le_add_right _ _⟩
  unfold trainer_rom_stop trainer_rom_start
  split <;> omega

/-- Witness for C9 at the minimal valid image. -/
theorem C9_contiguous_regions_witness :
    construct dMin16 = Except.ok () ∧
      (trainer_rom_start dMin16 = 16 ∧
        prg_rom_start dMin16 = trainer_rom_stop dMin16 ∧
        chr_rom_start dMin16 = prg_rom_stop dMin16 ∧
        trainer_rom_start dMin16 ≤ trainer_rom_stop dMin16 ∧
        prg_rom_start dMin16 ≤ prg_rom_stop dMin16 ∧
        chr_rom_start dMin16 ≤ chr_rom_stop dMin16) :=
  ⟨rfl, C9_contiguous_regions dMin16 rfl⟩

/-- C2 (amended): for every image that passes construction and whose
buffer is at least `chr_rom_stop` bytes long, the `prg_rom` view has
length exactly `16384 * prg_units` and the `chr_rom` view exactly
`8192 * chr_units`; without the length condition a truncated buffer
yields shorter views with no error raised. -/
theorem C2_region_lengths (d : List Nat) (hc : construct d = .ok ())
    (hb : chr_rom_stop d ≤ d.length) :
    (prg_rom d).length = 16384 * hdr d 4 ∧
      (chr_rom d).length = 8192 * hdr d 5 := by
  have hstop : prg_rom_stop d = prg_rom_start d + 16384 * hdr d 4 := by
    unfold prg_rom_stop prg_rom_size
    ring
  have hcstop : chr_rom_stop d = prg_rom_stop d + 8192 * hdr d 5 := by
    unfold chr_rom_stop chr_rom_start chr_rom_size
    ring
  have hcs : chr_rom_start d = prg_rom_stop d := rfl
  rw [hcstop, hstop] at hb
  constructor
  · rw [prg_rom, npSlice_length, hstop]
    have hps : prg_rom_start d = prg_rom_start d := rfl
    omega
  · rw [chr_rom, npSlice_length, hcs, hcstop, hstop]
    omega

/-- Witness for C2's amended statement at the minimal valid image. -/
theorem C2_region_lengths_witness :
    construct dMin16 = Except.ok () ∧ chr_rom_stop dMin16 ≤ dMin16.length ∧
      ((prg_rom dMin16).length = 16384 * hdr dMin16 4 ∧
        (chr_rom dMin16).length = 8192 * hdr dMin16 5) :=
  ⟨rfl, by decide, C2_region_lengths dMin16 rfl (by decide)⟩

/-- Counterexample to C2 as stated: the truncated Scenario-B file
passes construction, every region read returns (the reads are total:
numpy slicing clamps), yet `prg_rom` is 984 bytes instead of
`16384 * 2`. -/
theorem C2_lengths_counterexample :
    construct dTrunc = Except.ok () ∧ hdr dTrunc 4 = 2 ∧
      (prg_rom dTrunc).length ≠ 16384 * hdr dTrunc 4 := by
  refine ⟨rfl, rfl, ?_⟩
  rw [dTrunc_prg_len]
  rw [show hdr dTrunc 4 = 2 from rfl]
  decide

/-- C6 (amended): for every image that passes construction and whose
buffer reaches `trainer_rom_stop`, `has_trainer` holds iff the trainer
view has length 512, otherwise the trainer view has length 0; when the
trainer bit is set the trainer occupies `[16, 528)` and `prg_rom`
starts at offset 528. -/
theorem C6_trainer_length (d : List Nat) (hc : construct d = .ok ())
    (hb : trainer_rom_stop d ≤ d.length) :
    (has_trainer d = true ↔ (trainer_rom d).length = 512) ∧
      (has_trainer d = false → (trainer_rom d).length = 0) ∧
      (has_trainer d = true →
        trainer_rom_start d = 16 ∧ trainer_rom_stop d = 528 ∧
          prg_rom_start d = 528) := by
  have hstart : trainer_rom_start d = 16 := rfl
  have hlen : (trainer_rom d).length = min (trainer_rom_stop d) d.length - 16 := by
    rw [trainer_rom, npSlice_length, hstart]
  rcases Bool.eq_false_or_eq_true (has_trainer d) with h | h
  · have hstop : trainer_rom_stop d = 528 := by simp [trainer_rom_stop, h]
    rw [hstop] at hb
    have h512 : (trainer_rom d).length = 512 := by
      rw [hlen, hstop]
      omega
    refine ⟨by simp [h, h512], ?_, fun _ => ⟨hstart, hstop, hstop⟩⟩
    intro hf
    simp [h] at hf
  · have hstop : trainer_rom_stop d = 16 := by simp [trainer_rom_stop, h]
    have hz : (trainer_rom d).length = 0 := by
      rw [hlen, hstop]
      omega
    refine ⟨by simp [h, hz], fun _ => hz, ?_⟩
    intro ht
    simp [h] at ht

/-- Witness for C6's amended statement at the minimal valid image. -/
theorem C6_trainer_length_witness :
    construct dMin16 = Except.ok () ∧
      trainer_rom_stop dMin16 ≤ dMin16.length ∧
      ((has_trainer dMin16 = true ↔ (trainer_rom dMin16).length = 512) ∧
        (has_trainer dMin16 = false → (trainer_rom dMin16).length = 0) ∧
        (has_trainer dMin16 = true →
          trainer_rom_start dMin16 = 16 ∧ trainer_rom_stop dMin16 = 528 ∧
            prg_rom_start dMin16 = 528)) :=
  ⟨rfl, by decide, C6_trainer_length dMin16 rfl (by decide)⟩

/-- Counterexample to C6 as stated: a 20-byte image with the trainer
bit set passes construction, yet its trainer view has length 4 —
neither 512 nor 0 — because the slice clamps to the buffer length. -/
theorem C6_trainer_counterexample :
    construct d20 = Except.ok () ∧
      ¬(has_trainer d20 = true ↔ (trainer_rom d20).length = 512) := by
  refine ⟨rfl, ?_⟩
  decide

/-- C1: the code never raises on a truncated image.  The Scenario-B
file (declared 2 PRG and 1 CHR units, truncated to 1000 bytes) passes
construction, and both region reads succeed with clamped views —
`prg_rom` has 984 bytes and `chr_rom` 0 — instead of failing with the
`ValueError` the claim and the code's own dead `except IndexError`
handlers call for. -/
theorem C1_truncation_not_raised :
    construct dTrunc = Except.ok () ∧ dTrunc.length = 1000 ∧
      prg_rom_stop dTrunc = 32784 ∧ chr_rom_stop dTrunc = 40976 ∧
      (prg_rom dTrunc).length = 984 ∧ (chr_rom dTrunc).length = 0 :=
  ⟨rfl, dTrunc_length, rfl, rfl, dTrunc_prg_len, dTrunc_chr_len⟩

end NesPy
